import Mathlib

/-!
Verification of the aa-pytools utilities: a shallow embedding of
`scripts/bump_version.py`, `src/aa_pytools/core/logging.py` and
`src/aa_pytools/decorators/safe_execute.py`, together with theorems
settling the behavioural claims about them.

Python strings are embedded as `String`, Python string primitives as
structurally recursive functions on character lists (so that every
definition evaluates by kernel reduction), stateful code as explicit
state passing, and fallible code as `Except`.
-/

namespace AaPytools

/-- A single quote character as a string (used to build the search pattern
of the version bumper exactly as the Python source spells it). -/
def squote : String := String.singleton (Char.ofNat 39)

/-- Boolean test that the first list is a prefix of the second
(Python substring match anchored at the head). -/
def leadsWith : List Char → List Char → Bool
  | [], _ => true
  | _ :: _, [] => false
  | a :: as, b :: bs => a == b && leadsWith as bs

/-- Fuel-indexed worker for `pyReplace`: scans the text left to right,
replacing each non-overlapping occurrence of `pat` and skipping past it,
exactly as CPython `str.replace` does. The fuel starts at the length of
the text; each step consumes at least one character (for nonempty `pat`),
so the fuel never runs out, and keeping it explicit makes the recursion
structural and kernel-reducible. -/
def pyReplaceAux (pat rep : List Char) : Nat → List Char → List Char
  | 0, l => l
  | _ + 1, [] => []
  | fuel + 1, c :: cs =>
    if leadsWith pat (c :: cs) then
      rep ++ pyReplaceAux pat rep fuel (List.drop (pat.length - 1) cs)
    else
      c :: pyReplaceAux pat rep fuel cs

/-- Embeds Python `str.replace(pat, rep)` for a nonempty pattern: every
non-overlapping occurrence of `pat` in `s`, found left to right, is
replaced by `rep`. (CPython behaviour for an empty pattern differs, but
the version bumper only ever searches for a pattern beginning with the
literal text `version = `, which is nonempty.) -/
def pyReplace (s pat rep : String) : String :=
  if pat.isEmpty then s
  else String.mk (pyReplaceAux pat.toList rep.toList s.toList.length s.toList)

/-- Embeds the kind selection of `scripts/bump_version.py`:
the first CLI argument when present, the text `patch` otherwise
(`sys.argv` has the script path at index 0). -/
def kindOfArgv (argv : List String) : String :=
  match argv with
  | _ :: k :: _ => k
  | _ => "patch"

/-- Embeds the `match kind` block of `scripts/bump_version.py`: bump the
selected segment of the (major, minor, patch) triple, resetting the lower
segments; every kind other than `major` and `minor` falls to the wildcard
arm and bumps the patch segment. -/
def bumpVersion (kind : String) (v : Nat × Nat × Nat) : Nat × Nat × Nat :=
  match kind with
  | "major" => (v.1 + 1, 0, 0)
  | "minor" => (v.1, v.2.1 + 1, 0)
  | _ => (v.1, v.2.1, v.2.2 + 1)

/-- Embeds the f-string formatting the new version. -/
def formatVersion (v : Nat × Nat × Nat) : String :=
  toString v.1 ++ "." ++ toString v.2.1 ++ "." ++ toString v.2.2

/-- Embeds the manifest rewrite of `scripts/bump_version.py`: the script
searches for the old version wrapped in SINGLE quotes and substitutes the
new version with NO quotes, exactly as the source spells it:
`content.replace(f"version = oldquoted", f"version = new")` where the old
version is wrapped in single quote characters in the pattern. -/
def rewriteManifest (content oldVersion newVersion : String) : String :=
  pyReplace content ("version = " ++ squote ++ oldVersion ++ squote)
    ("version = " ++ newVersion)

/-- Embeds the final `print` of the script. -/
def printedLine (newVersion : String) : String :=
  "Version bumped -> " ++ newVersion

/-- Python `str.upper` (ASCII-relevant part), kept structurally recursive. -/
def pyUpper (s : String) : String := String.mk (s.toList.map Char.toUpper)

/-- Python `str.startswith` as a prefix test on characters. -/
def pyStartsWith (s pre : String) : Bool := leadsWith pre.toList s.toList

/-- Default log level of `core/logging.py`. -/
def DEFAULT_LOG_LEVEL : String := "INFO"

/-- Default message format of `core/logging.py`. -/
def DEFAULT_FORMAT : String := "%(asctime)s | %(name)s | %(levelname)s | %(message)s"

/-- Default timestamp format of `core/logging.py`. -/
def DEFAULT_DATE_FORMAT : String := "%Y-%m-%d %H:%M:%S"

/-- Reserved package namespace of `core/logging.py`. -/
def PACKAGE_NAME : String := "aa_pytools"

/-- The five severities named by the `LOG_LEVEL` literal alias in
`core/logging.py`. -/
def LOG_LEVEL_NAMES : List String := ["DEBUG", "INFO", "WARNING", "ERROR", "CRITICAL"]

/-- A sink attached to the package logger: a console `StreamHandler` on
stdout, or a `FileHandler` for a path. `FileHandler` subclasses
`StreamHandler`, so the source test
`isinstance(h, StreamHandler) and not isinstance(h, FileHandler)`
selects exactly the console constructor here. -/
inductive Handler where
  | console : Handler
  | file (path : String) : Handler
deriving DecidableEq

/-- The console-handler test of the source (see `Handler`). -/
def Handler.isConsole : Handler → Bool
  | Handler.console => true
  | Handler.file _ => false

/-- The `isinstance(h, FileHandler)` test of the source. -/
def Handler.isFile : Handler → Bool
  | Handler.console => false
  | Handler.file _ => true

/-- The module-level `_config` record of `core/logging.py`:
level, message format, timestamp format, attached sinks, configured flag. -/
structure LogConfig where
  level : String
  format : String
  date_format : String
  handlers : List Handler
  configured : Bool
deriving DecidableEq

/-- The default `_config` value spelled out in the source dict literal. -/
def defaultConfig : LogConfig :=
  { level := DEFAULT_LOG_LEVEL
    format := DEFAULT_FORMAT
    date_format := DEFAULT_DATE_FORMAT
    handlers := []
    configured := false }

/-- Process-wide logging state: the module record `_config` plus the
relevant state of the stdlib package logger (`logging.getLogger(PACKAGE_NAME)`):
its attached handlers, numeric level, and propagation flag. -/
structure LogState where
  config : LogConfig
  pkgHandlers : List Handler
  pkgLevel : Nat
  propagate : Bool
deriving DecidableEq

/-- Fresh-process logging state: default config record, package logger with
no handlers, numeric level `NOTSET` (0), propagation on. -/
def initState : LogState :=
  { config := defaultConfig, pkgHandlers := [], pkgLevel := 0, propagate := true }

/-- Kinds of Python exceptions raised by the embedded code. -/
inductive PyErrKind where
  | typeError (msg : String)
  | valueError (msg : String)
deriving DecidableEq

/-- Whether the metaclass `type` (the type of the class object `dict`)
defines `__setitem__`. It does not, so an assignment whose target is the
subscription `dict[str, any]` raises `TypeError`. -/
def typeHasSetItem : Bool := false

/-- The CPython diagnostic for that failed assignment. -/
def typeSetItemMsg : String :=
  squote ++ "type" ++ squote ++ " object does not support item assignment"

/-- Embeds the module-level statement of `core/logging.py`
`_config = dict[str, any] = ...dict literal...`.
This is a CHAINED assignment, not an annotation: the dict literal is
evaluated, bound to the first target `_config`, and then assigned to the
second target, the subscription `dict[str, any]`; since the metaclass
`type` has no `__setitem__`, that second assignment raises `TypeError`,
so evaluating the module body fails. -/
def loggingModuleInit : Except PyErrKind LogConfig :=
  let value := defaultConfig
  if typeHasSetItem then Except.ok value
  else Except.error (PyErrKind.typeError typeSetItemMsg)

/-- Python `x or default` for an optional string parameter:
both `None` and the empty string are falsy and select the default. -/
def pyOrStr (x : Option String) (d : String) : String :=
  match x with
  | Option.none => d
  | Option.some s => if s = "" then d else s

/-- Models `getattr(logging, name)` as used by `configure_logging`,
restricted to the integer level constants the stdlib `logging` module
binds at upper-case names: CRITICAL, FATAL, ERROR, WARNING, WARN, INFO,
DEBUG, NOTSET. A name not bound in the module raises `AttributeError`
(mapped to `none` here); the few other bound attributes reachable by an
upper-cased level string (e.g. `BASIC_FORMAT`) are not integers, and the
subsequent `Logger.setLevel` raises on them, so both cases collapse to
the error outcome of `configure_logging` below. -/
def loggingLevelAttr : String → Option Nat
  | "CRITICAL" => Option.some 50
  | "FATAL" => Option.some 50
  | "ERROR" => Option.some 40
  | "WARNING" => Option.some 30
  | "WARN" => Option.some 30
  | "INFO" => Option.some 20
  | "DEBUG" => Option.some 10
  | "NOTSET" => Option.some 0
  | _ => Option.none

/-- Embeds `configure_logging` from `core/logging.py` as a state
transformer. Fidelity notes: the early return fires when already
configured and not forcing; option defaulting uses Python truthiness
(`x or DEFAULT`); level validation is
`getattr(logging, level.upper())` inside a try whose failure is re-raised
as `ValueError` (see `loggingLevelAttr`); forcing clears both handler
lists before re-adding; a console sink is added only when `console` is
true and no console sink is attached; a file sink is added only for a
truthy path when no file sink is attached (the `mkdir` side effect on the
filesystem is not modelled); finally propagation is disabled and the
configured flag set. On the error path the real code has already mutated
the level/format fields of `_config` before raising; no claim observes
that partial state, so the error carries no state here. -/
def configure_logging (level format_string date_format log_file : Option String)
    (console : Bool) (force_reconfigure : Bool) (s : LogState) :
    Except PyErrKind LogState :=
  if s.config.configured && !force_reconfigure then Except.ok s
  else
    let lv := pyOrStr level DEFAULT_LOG_LEVEL
    let fmt := pyOrStr format_string DEFAULT_FORMAT
    let df := pyOrStr date_format DEFAULT_DATE_FORMAT
    match loggingLevelAttr (pyUpper lv) with
    | Option.none => Except.error (PyErrKind.valueError ("Invalid log level: " ++ lv))
    | Option.some n =>
      let pkgH0 := if force_reconfigure then ([] : List Handler) else s.pkgHandlers
      let cfgH0 := if force_reconfigure then ([] : List Handler) else s.config.handlers
      let addConsole := console && !(pkgH0.any Handler.isConsole)
      let pkgH1 := if addConsole then pkgH0 ++ [Handler.console] else pkgH0
      let cfgH1 := if addConsole then cfgH0 ++ [Handler.console] else cfgH0
      let filePath := pyOrStr log_file ""
      let addFile := (decide (filePath ≠ "")) && !(pkgH1.any Handler.isFile)
      let pkgH2 := if addFile then pkgH1 ++ [Handler.file filePath] else pkgH1
      let cfgH2 := if addFile then cfgH1 ++ [Handler.file filePath] else cfgH1
      Except.ok
        { config :=
            { level := lv, format := fmt, date_format := df
              handlers := cfgH2, configured := true }
          pkgHandlers := pkgH2
          pkgLevel := n
          propagate := false }

/-- Embeds `get_logger` from `core/logging.py`: the returned logger handle
(identity keyed by name in the stdlib registry) carries no modelled state,
so only the side effect is kept: when the requested name starts with the
reserved package namespace and the state is unconfigured, a defaults-only
`configure_logging()` runs first. -/
def get_logger (name : String) (s : LogState) : Except PyErrKind LogState :=
  if pyStartsWith name PACKAGE_NAME && !s.config.configured then
    configure_logging Option.none Option.none Option.none Option.none true false s
  else Except.ok s

/-- Number of console sinks attached to a handler list. -/
def countConsole (hs : List Handler) : Nat := (hs.filter Handler.isConsole).length

/-- Fixed success phrase of `decorators/safe_execute.py`. -/
def DEFAULT_SUCCESS_MSG : String := "execute successfully"

/-- Fixed placeholder for a missing result in `decorators/safe_execute.py`. -/
def DEFAULT_NO_RESULT : String := "No result data"

/-- A representative universe of Python values flowing through the wrapper.
The wrapper treats the returned value opaquely apart from the
`result is not None` test, so a universe with the `None` singleton,
booleans, integers and strings suffices to state the claims. -/
inductive PyVal where
  | none : PyVal
  | bool (b : Bool) : PyVal
  | int (n : Int) : PyVal
  | str (s : String) : PyVal
deriving DecidableEq

/-- One traceback entry: the code-object name of its frame, the source
file of that frame, and the line being executed in it (`tb_lineno`). -/
structure Frame where
  co_name : String
  co_filename : String
  tb_lineno : Nat
deriving DecidableEq

/-- Outcome of invoking the wrapped callable: a normal return, or a raised
exception with its class name, message, the flag telling whether the
raised class is a subclass of `Exception` (`SystemExit`,
`KeyboardInterrupt` and `GeneratorExit` derive only from `BaseException`,
so `except Exception` does not match them), and the traceback as unwound
in the except block: the head is the frame of the wrapper itself (where
the `try` lives) and subsequent entries go inward to the raise site. -/
inductive CallOutcome where
  | ok (v : PyVal) : CallOutcome
  | exc (isExceptionSub : Bool) (ty : String) (msg : String) (tb : List Frame) : CallOutcome
deriving DecidableEq

/-- The `error` sub-dict of the failure payload: exception class name,
message, and — only when trace inclusion was requested — the pair of
`file` and `line` entries (each possibly null). -/
structure ErrPayload where
  type : String
  message : String
  trace : Option (Option String × Option Nat)
deriving DecidableEq

/-- The payload dict built by the wrapper: the `status` key is the
constructor tag (`success` carries status true, `failure` status false),
plus message/result or error, and the `time_spent` entry. -/
inductive Payload where
  | success (message : String) (result : PyVal) (time_spent : Nat) : Payload
  | failure (error : ErrPayload) (time_spent : Nat) : Payload
deriving DecidableEq

/-- `os.path.basename` on POSIX paths: the part after the last slash. -/
def basename (p : String) : String :=
  String.mk ((p.toList.reverse.takeWhile (fun c => c ≠ '/')).reverse)

/-- The `while tb:` walk of the wrapper: the FIRST traceback entry, from
the wrapper frame inward, whose code-object name equals the `__name__`
of the wrapped callable. -/
def findFuncFrame (funcName : String) : List Frame → Option Frame
  | [] => Option.none
  | f :: rest => if f.co_name == funcName then Option.some f else findFuncFrame funcName rest

/-- JSON string escaping (quotes and backslashes; the only escapes the
payload strings of this development exercise). -/
def jsonEscape (s : String) : String :=
  String.mk (s.toList.foldr
    (fun c acc =>
      (if c = '\"' then ['\\', '\"'] else if c = '\\' then ['\\', '\\'] else [c]) ++ acc)
    [])

/-- A JSON string literal. -/
def jsonQuoted (s : String) : String := "\"" ++ jsonEscape s ++ "\""

/-- JSON rendering of an embedded Python value. -/
def jsonOfPyVal : PyVal → String
  | PyVal.none => "null"
  | PyVal.bool true => "true"
  | PyVal.bool false => "false"
  | PyVal.int n => toString n
  | PyVal.str s => jsonQuoted s

/-- Join with a separator (structurally recursive). -/
def joinWith (sep : String) : List String → String
  | [] => ""
  | [x] => x
  | x :: y :: rest => x ++ sep ++ joinWith sep (y :: rest)

/-- A JSON object from rendered key/value pairs, with the default
`json.dumps` separators and insertion key order. -/
def jsonObj (fields : List (String × String)) : String :=
  "\x7b" ++ joinWith ", " (fields.map (fun f => jsonQuoted f.1 ++ ": " ++ f.2)) ++ "\x7d"

/-- Rendering of an optional string (null when absent). -/
def jsonOfOptStr : Option String → String
  | Option.none => "null"
  | Option.some s => jsonQuoted s

/-- Rendering of an optional number (null when absent). -/
def jsonOfOptNat : Option Nat → String
  | Option.none => "null"
  | Option.some n => toString n

/-- `json.dumps` of the error sub-dict: type and message always, file and
line exactly when trace inclusion added them. -/
def dumpsErr (e : ErrPayload) : String :=
  jsonObj
    ([("type", jsonQuoted e.type), ("message", jsonQuoted e.message)] ++
      (match e.trace with
       | Option.none => []
       | Option.some fl => [("file", jsonOfOptStr fl.1), ("line", jsonOfOptNat fl.2)]))

/-- `json.dumps` of the whole payload, keys in insertion order. The
`time_spent` float is rendered from its abstract value. -/
def dumps : Payload → String
  | Payload.success msg res t =>
    jsonObj
      [("status", "true"), ("message", jsonQuoted msg),
       ("result", jsonOfPyVal res), ("time_spent", toString t)]
  | Payload.failure err t =>
    jsonObj [("status", "false"), ("error", dumpsErr err), ("time_spent", toString t)]

/-- What the wrapper hands back to its caller: the payload dict, or its
JSON serialization when `return_json` was requested. -/
inductive WrapperOut where
  | payload (p : Payload) : WrapperOut
  | asJson (s : String) : WrapperOut
deriving DecidableEq

/-- Embeds `wrapper` from `decorators/safe_execute.py`. `funcName` is the
`__name__` of the wrapped callable; `func` is the callable on an abstract
argument-tuple type; `elapsed` is the rounded `time.perf_counter`
difference, an environmental quantity the wrapper only stores, passed as
a parameter. The success branch builds the success payload, replacing a
`None` result with the placeholder; the `except Exception` branch builds
the failure payload, walking the traceback for the file/line pair exactly
when trace inclusion was requested and a traceback is available, and
falling back to the traceback head when no frame of the callable is
found; a raised class outside the `Exception` hierarchy is not matched by
the except clause and propagates — the `Except.error` case. -/
def wrapper {α : Type} (return_json include_trace : Bool) (funcName : String)
    (func : α → CallOutcome) (elapsed : Nat) (args : α) :
    Except CallOutcome WrapperOut :=
  match func args with
  | CallOutcome.ok result =>
    let payload := Payload.success ("Function " ++ funcName ++ " " ++ DEFAULT_SUCCESS_MSG)
      (if result = PyVal.none then PyVal.str DEFAULT_NO_RESULT else result) elapsed
    Except.ok (if return_json then WrapperOut.asJson (dumps payload) else WrapperOut.payload payload)
  | CallOutcome.exc isExceptionSub ty msg tb =>
    if isExceptionSub then
      let fnameLine : Option String × Option Nat :=
        match tb with
        | [] => (Option.none, Option.none)
        | exc_tb :: _ =>
          if include_trace then
            let frame := (findFuncFrame funcName tb).getD exc_tb
            (Option.some (basename frame.co_filename), Option.some frame.tb_lineno)
          else (Option.none, Option.none)
      let errPayload : ErrPayload :=
        { type := ty, message := msg
          trace := if include_trace then Option.some fnameLine else Option.none }
      let payload := Payload.failure errPayload elapsed
      Except.ok (if return_json then WrapperOut.asJson (dumps payload) else WrapperOut.payload payload)
    else Except.error (CallOutcome.exc isExceptionSub ty msg tb)

/-- A manifest containing the double-quoted version line the TOML parser
reads (`tomllib` parses `version = "1.2.3"` to the string `1.2.3`). -/
def manifestC2 : String :=
  "[project]\nname = \"aa-pytools\"\nversion = \"1.2.3\"\n"

/-- C4: for every version triple (X, Y, Z), kind major yields (X+1, 0, 0),
kind minor yields (X, Y+1, 0), kind patch yields (X, Y, Z+1), an absent
CLI argument selects patch, and any kind other than major and minor also
yields (X, Y, Z+1). -/
theorem C4_bump_kinds (x y z : Nat) :
    bumpVersion "major" (x, y, z) = (x + 1, 0, 0) ∧
    bumpVersion "minor" (x, y, z) = (x, y + 1, 0) ∧
    bumpVersion "patch" (x, y, z) = (x, y, z + 1) ∧
    bumpVersion (kindOfArgv ["scripts/bump_version.py"]) (x, y, z) = (x, y, z + 1) ∧
    ∀ k : String, k ≠ "major" → k ≠ "minor" → bumpVersion k (x, y, z) = (x, y, z + 1) := by
  refine ⟨rfl, rfl, rfl, rfl, ?_⟩
  intro k h1 h2
  unfold bumpVersion
  split <;> simp_all

/-- C4 witness: the kind list of the claim evaluated at the concrete
triple (1, 2, 3), including an unrecognized kind. -/
theorem C4_bump_kinds_witness :
    bumpVersion "major" (1, 2, 3) = (2, 0, 0) ∧
    bumpVersion "rewrite" (1, 2, 3) = (1, 2, 4) :=
  ⟨(C4_bump_kinds 1 2 3).1, (C4_bump_kinds 1 2 3).2.2.2.2 "rewrite" (by decide) (by decide)⟩

/-- C2: evaluating the manifest rewrite at the failing input. The script
searches for the old version wrapped in single quotes, so on a manifest
whose version line is double quoted (the form `tomllib` itself parsed)
the replacement finds nothing and the manifest text is returned
unchanged; and even on a single-quoted manifest the replacement text
carries no quotes, so the new quoted version never appears. The version
arithmetic and the printed line are also evaluated. -/
theorem C2_rewrite_is_noop_on_double_quoted_manifest :
    bumpVersion "minor" (1, 2, 3) = (1, 3, 0) ∧
    formatVersion (1, 3, 0) = "1.3.0" ∧
    rewriteManifest manifestC2 "1.2.3" "1.3.0" = manifestC2 ∧
    rewriteManifest ("version = " ++ squote ++ "1.2.3" ++ squote) "1.2.3" "1.3.0" =
      "version = 1.3.0" ∧
    printedLine "1.3.0" = "Version bumped -> 1.3.0" := by
  refine ⟨rfl, by decide, by decide, by decide, by decide⟩

/-- C3: evaluating the module body of `core/logging.py` fails: the
chained assignment `_config = dict[str, any] = ...` binds the dict
literal and then raises `TypeError` assigning to the subscription target,
while the dict literal itself (the intended default record) does match
the claimed defaults: level INFO, default message and timestamp formats,
empty sink list, configured false. -/
theorem C3_module_init_raises_type_error :
    defaultConfig.level = "INFO" ∧
    defaultConfig.format = DEFAULT_FORMAT ∧
    defaultConfig.date_format = DEFAULT_DATE_FORMAT ∧
    defaultConfig.handlers = [] ∧
    defaultConfig.configured = false ∧
    loggingModuleInit = Except.error (PyErrKind.typeError typeSetItemMsg) :=
  ⟨rfl, rfl, rfl, rfl, rfl, rfl⟩

/-- Helper: whenever `configure_logging` returns normally, the returned
state has the configured flag set (either it was already set and the call
early-returned, or the final record sets it). -/
theorem configure_ok_configured (olv ofmt odf olf : Option String) (c fr : Bool)
    (s s' : LogState)
    (h : configure_logging olv ofmt odf olf c fr s = Except.ok s') :
    s'.config.configured = true := by
  unfold configure_logging at h
  split at h
  · next hcond =>
    simp only [Except.ok.injEq] at h
    subst h
    exact ((Bool.and_eq_true _ _).mp hcond).1
  · rcases hm : loggingLevelAttr (pyUpper (pyOrStr olv DEFAULT_LOG_LEVEL)) with _ | n <;>
      simp only [hm] at h
    · exact absurd h (by simp)
    · simp only [Except.ok.injEq] at h
      rw [← h]

/-- The state after a defaults-only `configure_logging` on a fresh
process: default level and formats, exactly one console sink, numeric
level 20 (INFO), propagation disabled, configured flag set. -/
def configuredState : LogState :=
  { config :=
      { level := "INFO", format := DEFAULT_FORMAT, date_format := DEFAULT_DATE_FORMAT
        handlers := [Handler.console], configured := true }
    pkgHandlers := [Handler.console]
    pkgLevel := 20
    propagate := false }

/-- C5: once `configure_logging` has completed successfully the
configured flag is set; every later call with force off — whatever the
options — returns immediately with the whole state (level, formats,
flag, sinks) unchanged; and two parameterless configure calls starting
from a fresh process leave exactly one console sink attached. -/
theorem C5_configure_is_noop_after_success :
    (∀ (s : LogState) (olv ofmt odf olf : Option String) (c : Bool),
      s.config.configured = true →
      configure_logging olv ofmt odf olf c false s = Except.ok s) ∧
    (∀ (olv ofmt odf olf : Option String) (c fr : Bool) (s s' : LogState),
      configure_logging olv ofmt odf olf c fr s = Except.ok s' →
      s'.config.configured = true) ∧
    configure_logging Option.none Option.none Option.none Option.none true false initState =
      Except.ok configuredState ∧
    countConsole configuredState.pkgHandlers = 1 ∧
    configure_logging Option.none Option.none Option.none Option.none true false
      configuredState = Except.ok configuredState := by
  refine ⟨?_, ?_, rfl, by decide, rfl⟩
  · intro s olv ofmt odf olf c h
    simp [configure_logging, h]
  · intro olv ofmt odf olf c fr s s' h
    exact configure_ok_configured olv ofmt odf olf c fr s s' h

/-- C5 witness: on the concrete configured state, a later call with
different options and force off returns the state unchanged. -/
theorem C5_witness :
    configure_logging (Option.some "DEBUG") Option.none Option.none Option.none true false
      configuredState = Except.ok configuredState :=
  C5_configure_is_noop_after_success.1 configuredState (Option.some "DEBUG")
    Option.none Option.none Option.none true rfl

/-- C6 counterexample: the level string `warn` upper-cases to `WARN`,
which is not one of the five severities, yet `configure_logging` accepts
it on a fresh state (the stdlib logging module binds `WARN` to 30, so
`getattr` succeeds and `setLevel` is happy). -/
theorem C6_counterexample :
    pyUpper "warn" ∉ LOG_LEVEL_NAMES ∧
    (configure_logging (Option.some "warn") Option.none Option.none Option.none true false
      initState).isOk = true := by
  exact ⟨by decide, by decide⟩

/-- C6 (amended): on an unconfigured state and for a nonempty level
string, `configure_logging` raises if and only if the upper-cased level
is not one of the level constants the stdlib logging module binds (the
five severities plus the aliases WARN and FATAL and the pseudo-level
NOTSET); in particular every one of the five severities, in any casing,
passes validation. -/
theorem C6_level_validation (s : LogState) (lv : String)
    (hc : s.config.configured = false) (hne : lv ≠ "") :
    ((configure_logging (Option.some lv) Option.none Option.none Option.none true false
        s).isOk = true ↔
      loggingLevelAttr (pyUpper lv) ≠ Option.none) ∧
    (pyUpper lv ∈ LOG_LEVEL_NAMES →
      (configure_logging (Option.some lv) Option.none Option.none Option.none true false
        s).isOk = true) := by
  have hor : pyOrStr (Option.some lv) DEFAULT_LOG_LEVEL = lv := by
    simp [pyOrStr, hne]
  have hmain :
      (configure_logging (Option.some lv) Option.none Option.none Option.none true false
        s).isOk = true ↔
      loggingLevelAttr (pyUpper lv) ≠ Option.none := by
    unfold configure_logging
    rw [hc, hor]
    rcases hm : loggingLevelAttr (pyUpper lv) with _ | n <;>
      simp [hm, Except.isOk, Except.toBool]
  refine ⟨hmain, fun hmem => hmain.mpr ?_⟩
  simp only [LOG_LEVEL_NAMES, List.mem_cons, List.not_mem_nil, or_false] at hmem
  rcases hmem with h | h | h | h | h <;> rw [h] <;> decide

/-- C6 witness: a mixed-casing severity passes validation on the fresh
state. -/
theorem C6_witness :
    (configure_logging (Option.some "Warning") Option.none Option.none Option.none true false
      initState).isOk = true :=
  (C6_level_validation initState "Warning" rfl (by decide)).2 (by decide)

/-- The state produced by a defaults-only `configure_logging` on an
unconfigured state (helper for the C7 proof): a console sink is appended
exactly when none is attached yet. -/
def afterDefaultConfigure (s : LogState) : LogState :=
  let addConsole := !(s.pkgHandlers.any Handler.isConsole)
  { config :=
      { level := "INFO", format := DEFAULT_FORMAT, date_format := DEFAULT_DATE_FORMAT
        handlers := if addConsole then s.config.handlers ++ [Handler.console]
          else s.config.handlers
        configured := true }
    pkgHandlers := if addConsole then s.pkgHandlers ++ [Handler.console] else s.pkgHandlers
    pkgLevel := 20
    propagate := false }

/-- Helper: a defaults-only `configure_logging` on an unconfigured state
returns `afterDefaultConfigure`. -/
theorem configure_defaults_eq (s : LogState) (hc : s.config.configured = false) :
    configure_logging Option.none Option.none Option.none Option.none true false s =
      Except.ok (afterDefaultConfigure s) := by
  unfold configure_logging
  rw [hc]
  rfl

/-- C7: requesting a logger under the reserved namespace on an
unconfigured state triggers exactly the defaults-only configuration,
which sets the configured flag; a second request for any name under the
namespace returns with the state untouched — no reconfiguration, no
added sink. -/
theorem C7_autoconfigure_once (name1 name2 : String) (s : LogState)
    (h1 : pyStartsWith name1 PACKAGE_NAME = true)
    (_h2 : pyStartsWith name2 PACKAGE_NAME = true)
    (hc : s.config.configured = false) :
    ∃ s1 : LogState,
      get_logger name1 s = Except.ok s1 ∧
      configure_logging Option.none Option.none Option.none Option.none true false s =
        Except.ok s1 ∧
      s1.config.configured = true ∧
      get_logger name2 s1 = Except.ok s1 := by
  refine ⟨afterDefaultConfigure s, ?_, configure_defaults_eq s hc, rfl, ?_⟩
  · unfold get_logger
    rw [h1, hc]
    exact configure_defaults_eq s hc
  · unfold get_logger
    have : (afterDefaultConfigure s).config.configured = true := rfl
    rw [this]
    simp

/-- C7 witness: two package-namespace logger requests on the fresh
state. -/
theorem C7_witness :
    ∃ s1 : LogState,
      get_logger "aa_pytools.module1" initState = Except.ok s1 ∧
      configure_logging Option.none Option.none Option.none Option.none true false initState =
        Except.ok s1 ∧
      s1.config.configured = true ∧
      get_logger "aa_pytools.module2" s1 = Except.ok s1 :=
  C7_autoconfigure_once "aa_pytools.module1" "aa_pytools.module2" initState
    (by decide) (by decide) rfl

/-- C1: whenever the wrapped callable raises a failure — an exception in
the standard catchable hierarchy — the wrapper returns normally with a
failure payload carrying the exception class name and message (as the
structured payload, or its JSON serialization when `return_json` was
requested); the failure is never propagated to the caller of the
wrapper. -/
theorem C1_wrapper_returns_failure_payload {α : Type} (rj it : Bool)
    (funcName : String) (func : α → CallOutcome) (elapsed : Nat) (args : α)
    (ty msg : String) (tb : List Frame)
    (h : func args = CallOutcome.exc true ty msg tb) :
    ∃ e : ErrPayload,
      wrapper rj it funcName func elapsed args =
        Except.ok (if rj then WrapperOut.asJson (dumps (Payload.failure e elapsed))
          else WrapperOut.payload (Payload.failure e elapsed)) ∧
      e.type = ty ∧ e.message = msg := by
  unfold wrapper
  rw [h]
  exact ⟨_, rfl, rfl, rfl⟩

/-- C1 witness: a concrete raising callable is converted to a failure
payload with its class name and message. -/
theorem C1_witness :
    ∃ e : ErrPayload,
      wrapper false false "f" (fun _ : Unit => CallOutcome.exc true "ValueError" "boom" []) 3 () =
        Except.ok (if false then WrapperOut.asJson (dumps (Payload.failure e 3))
          else WrapperOut.payload (Payload.failure e 3)) ∧
      e.type = "ValueError" ∧ e.message = "boom" :=
  C1_wrapper_returns_failure_payload false false "f"
    (fun _ : Unit => CallOutcome.exc true "ValueError" "boom" []) 3 () "ValueError" "boom" [] rfl

/-- C10: a raised class outside the `Exception` hierarchy — such as
`SystemExit` or `KeyboardInterrupt` — is not matched by the except
clause of the wrapper and propagates out uncaught, with no payload
returned. -/
theorem C10_exiting_exception_propagates {α : Type} (rj it : Bool)
    (funcName : String) (func : α → CallOutcome) (elapsed : Nat) (args : α)
    (ty msg : String) (tb : List Frame)
    (h : func args = CallOutcome.exc false ty msg tb) :
    wrapper rj it funcName func elapsed args =
      Except.error (CallOutcome.exc false ty msg tb) := by
  unfold wrapper
  rw [h]
  rfl

/-- C10 witness: a callable raising `SystemExit` propagates it. -/
theorem C10_witness :
    wrapper false false "f" (fun _ : Unit => CallOutcome.exc false "SystemExit" "1" []) 2 () =
      Except.error (CallOutcome.exc false "SystemExit" "1" []) :=
  C10_exiting_exception_propagates false false "f"
    (fun _ : Unit => CallOutcome.exc false "SystemExit" "1" []) 2 () "SystemExit" "1" [] rfl

/-- Modelled from the spec words for C8 only: a return value that is
absent or empty — the `None` value, or an empty value such as the empty
string. Used to state the claim as written; the source tests
`result is not None`. -/
def spec_isAbsentOrEmpty : PyVal → Bool
  | PyVal.none => true
  | PyVal.str s => s == ""
  | _ => false

/-- C8 counterexample: a callable returning the empty string — an empty
return value in the words of the claim — has it passed through unchanged
as the result, not replaced by the placeholder string. -/
theorem C8_counterexample :
    spec_isAbsentOrEmpty (PyVal.str "") = true ∧
    wrapper false false "f" (fun _ : Unit => CallOutcome.ok (PyVal.str "")) 1 () =
      Except.ok (WrapperOut.payload
        (Payload.success "Function f execute successfully" (PyVal.str "") 1)) ∧
    PyVal.str "" ≠ PyVal.str DEFAULT_NO_RESULT := ⟨rfl, rfl, by decide⟩

/-- C8 (amended): on a normal return the payload is the success variant
(status true) whose message is the name of the callable followed by the
fixed success phrase, and whose result equals the returned value, except
that exactly a `None` return is replaced by the placeholder string —
empty-but-present values pass through unchanged. -/
theorem C8_success_payload {α : Type} (rj it : Bool) (funcName : String)
    (func : α → CallOutcome) (elapsed : Nat) (args : α) (v : PyVal)
    (h : func args = CallOutcome.ok v) :
    ∃ p : Payload,
      wrapper rj it funcName func elapsed args =
        Except.ok (if rj then WrapperOut.asJson (dumps p) else WrapperOut.payload p) ∧
      p = Payload.success ("Function " ++ funcName ++ " " ++ DEFAULT_SUCCESS_MSG)
        (if v = PyVal.none then PyVal.str DEFAULT_NO_RESULT else v) elapsed := by
  unfold wrapper
  rw [h]
  exact ⟨_, rfl, rfl⟩

/-- C8 witness: a callable returning 4 yields result 4; a callable
returning nothing yields the placeholder string. -/
theorem C8_witness :
    (∃ p : Payload,
      wrapper false false "add" (fun _ : Unit => CallOutcome.ok (PyVal.int 4)) 1 () =
        Except.ok (WrapperOut.payload p) ∧
      p = Payload.success "Function add execute successfully" (PyVal.int 4) 1) ∧
    (∃ p : Payload,
      wrapper false false "add_no_return" (fun _ : Unit => CallOutcome.ok PyVal.none) 1 () =
        Except.ok (WrapperOut.payload p) ∧
      p = Payload.success "Function add_no_return execute successfully"
        (PyVal.str DEFAULT_NO_RESULT) 1) := by
  obtain ⟨p, hp, he⟩ := C8_success_payload false false "add"
    (fun _ : Unit => CallOutcome.ok (PyVal.int 4)) 1 () (PyVal.int 4) rfl
  obtain ⟨q, hq, hqe⟩ := C8_success_payload false false "add_no_return"
    (fun _ : Unit => CallOutcome.ok PyVal.none) 1 () PyVal.none rfl
  refine ⟨⟨p, hp, ?_⟩, ⟨q, hq, ?_⟩⟩
  · rw [he]; rfl
  · rw [hqe]; rfl

/-- Helper: the traceback walk of the wrapper is `List.find?` on the
code-object name. -/
theorem findFuncFrame_eq_find (fn : String) (l : List Frame) :
    findFuncFrame fn l = l.find? (fun f => f.co_name == fn) := by
  induction l with
  | nil => rfl
  | cons f rest ih =>
    simp only [findFuncFrame, List.find?]
    by_cases hc : (f.co_name == fn) = true
    · simp [hc]
    · simp only [Bool.not_eq_true] at hc
      simp [hc, ih]

/-- Modelled from the spec words for C9 only: the innermost traceback
frame belonging to the wrapped callable — the last matching entry of the
traceback listed outermost-first. -/
def spec_innermostFuncFrame (funcName : String) (tb : List Frame) : Option Frame :=
  (tb.filter (fun f => f.co_name == funcName)).getLast?

/-- Traceback of a recursive callable f: the wrapper frame, the outer f
frame stopped at its recursive call on line 5, and the inner f frame
raising on line 7. -/
def tbRecursive : List Frame :=
  [{ co_name := "wrapper", co_filename := "app/mod.py", tb_lineno := 20 },
   { co_name := "f", co_filename := "app/mod.py", tb_lineno := 5 },
   { co_name := "f", co_filename := "app/mod.py", tb_lineno := 7 }]

/-- C9 counterexample: on the recursive traceback the innermost frame of
the callable sits at line 7, but the wrapper reports line 5 — its walk
stops at the FIRST matching frame from the outside, not the innermost
one. -/
theorem C9_counterexample :
    spec_innermostFuncFrame "f" tbRecursive =
      Option.some { co_name := "f", co_filename := "app/mod.py", tb_lineno := 7 } ∧
    wrapper false true "f"
      (fun _ : Unit => CallOutcome.exc true "RecursionError" "depth" tbRecursive) 2 () =
      Except.ok (WrapperOut.payload (Payload.failure
        { type := "RecursionError", message := "depth"
          trace := Option.some (Option.some "mod.py", Option.some 5) } 2)) ∧
    (5 : Nat) ≠ 7 := ⟨rfl, rfl, by decide⟩

/-- C9 (amended): with trace inclusion requested and a failing call, the
file and line fields identify the FIRST traceback frame carrying the
name of the wrapped callable, walking from the wrapper frame inward
(i.e. the outermost such frame) — its source file basename and its line
number, positive whenever the traceback line numbers are — falling back
to the head of the unwound traceback (the outermost failure location)
when no frame of the callable is found. -/
theorem C9_trace_fields {α : Type} (funcName : String)
    (func : α → CallOutcome) (elapsed : Nat) (args : α) (ty msg : String)
    (e : Frame) (rest : List Frame)
    (h : func args = CallOutcome.exc true ty msg (e :: rest))
    (hpos : ∀ f ∈ e :: rest, 0 < f.tb_lineno) :
    ∃ frame : Frame,
      ((e :: rest).find? (fun f => f.co_name == funcName)).getD e = frame ∧
      wrapper false true funcName func elapsed args =
        Except.ok (WrapperOut.payload (Payload.failure
          { type := ty, message := msg
            trace := Option.some (Option.some (basename frame.co_filename),
              Option.some frame.tb_lineno) } elapsed)) ∧
      0 < frame.tb_lineno := by
  refine ⟨((e :: rest).find? (fun f => f.co_name == funcName)).getD e, rfl, ?_, ?_⟩
  · unfold wrapper
    rw [h, ← findFuncFrame_eq_find]
    rfl
  · have hmem : ((e :: rest).find? (fun f => f.co_name == funcName)).getD e ∈ e :: rest := by
      cases hf : (e :: rest).find? (fun f => f.co_name == funcName) with
      | none => simp [hf]
      | some x =>
        simp only [hf, Option.getD_some]
        exact List.mem_of_find?_eq_some hf
    exact hpos _ hmem

/-- Outermost frame of the witness traceback (the wrapper itself). -/
def frameW : Frame := { co_name := "wrapper", co_filename := "a/x.py", tb_lineno := 9 }

/-- The single frame of the witness callable g. -/
def frameG : Frame := { co_name := "g", co_filename := "a/x.py", tb_lineno := 4 }

/-- C9 witness: a concrete two-frame traceback where the frame of the
callable is found and its basename and positive line are reported. -/
theorem C9_witness :
    ∃ frame : Frame,
      ((frameW :: [frameG]).find? (fun f => f.co_name == "g")).getD frameW = frame ∧
      wrapper false true "g"
        (fun _ : Unit => CallOutcome.exc true "ValueError" "bad" (frameW :: [frameG])) 1 () =
        Except.ok (WrapperOut.payload (Payload.failure
          { type := "ValueError", message := "bad"
            trace := Option.some (Option.some (basename frame.co_filename),
              Option.some frame.tb_lineno) } 1)) ∧
      0 < frame.tb_lineno :=
  C9_trace_fields "g"
    (fun _ : Unit => CallOutcome.exc true "ValueError" "bad" (frameW :: [frameG]))
    1 () "ValueError" "bad" frameW [frameG] rfl (by decide)

end AaPytools
